import Mathlib

/-!
Verification development for the proxypal supervision core
(`src-tauri/src/lib.rs`, with the `config.rs` ConfigStore and the
`utils.rs` helpers as named variants).

Shallow embedding conventions:
* Rust `u16`/`u32`/`u64` are `Nat`; wrapping additions on `u64` totals carry
  an explicit `% 2 ^ 64`.
* Rust `f64` cost arithmetic is modelled exactly over `ℚ`.
* `serde_json::Value` is the inductive `Json`; an object is an association
  list looked up by first match.
* Fallible operations return `Except String _`; HTTP traffic is passed in as
  an explicit outcome value (`SendResult`), and filesystem effects are
  explicit state records.
-/

/-- Contiguous-subsequence search used to model Rust substring `contains`. -/
def containsSeq (needle : List Char) : List Char → Bool
  | [] => needle.isEmpty
  | c :: t => if needle.isPrefixOf (c :: t) then true else containsSeq needle t

/-- Substring test: `strContains hay needle` models Rust `hay.contains(needle)`. -/
def strContains (hay needle : String) : Bool :=
  containsSeq needle.data hay.data

/-- Digit run to number; empty list gives `none` (Rust integer parse needs one digit). -/
def digitsToNat (cs : List Char) : Option Nat :=
  if cs.isEmpty then none
  else if cs.all Char.isDigit then
    some (cs.foldl (fun acc c => acc * 10 + (c.toNat - 48)) 0)
  else none

/-- Strip one optional leading plus sign, as Rust unsigned-integer parsing does. -/
def stripPlusSign (cs : List Char) : List Char :=
  match cs with
  | '+' :: rest => rest
  | _ => cs

/-- Model of Rust `str::parse::<u16>()`: optional `+`, digits, value below `2 ^ 16`. -/
def parseU16 (s : String) : Option Nat :=
  match digitsToNat (stripPlusSign s.data) with
  | some n => if n < 2 ^ 16 then some n else none
  | none => none

/-- Model of Rust `str::parse::<u64>()`: optional `+`, digits, value below `2 ^ 64`. -/
def parseU64 (s : String) : Option Nat :=
  match digitsToNat (stripPlusSign s.data) with
  | some n => if n < 2 ^ 64 then some n else none
  | none => none

/-- Value of a digit run, defaulting to 0 on the empty run (used inside decimals). -/
def digitsVal (cs : List Char) : Nat :=
  cs.foldl (fun acc c => acc * 10 + (c.toNat - 48)) 0

/-- Model of Rust `str::parse::<f64>()` restricted to plain decimal literals
(optional sign, integer digits, optional fraction); exponent, `inf` and `nan`
forms are outside the log formats this parser meets. -/
def parseDecimal (s : String) : Option ℚ :=
  let signed : ℚ × List Char :=
    match s.data with
    | '-' :: r => (-1, r)
    | '+' :: r => (1, r)
    | r => (1, r)
  let sign := signed.1
  let rest := signed.2
  let intPart := rest.takeWhile Char.isDigit
  let afterInt := rest.drop intPart.length
  match afterInt with
  | [] => if intPart.isEmpty then none else some (sign * (digitsVal intPart : ℚ))
  | '.' :: fracPart =>
    if fracPart.all Char.isDigit ∧ ¬(intPart.isEmpty ∧ fracPart.isEmpty) then
      some (sign * ((digitsVal intPart : ℚ) +
        (digitsVal fracPart : ℚ) / (10 ^ fracPart.length)))
    else none
  | _ => none

/-- Repeatedly strip a suffix, modelling Rust `trim_end_matches`. -/
def stripSuffixRepeatAux : Nat → List Char → List Char → List Char
  | 0, cs, _ => cs
  | fuel + 1, cs, suf =>
    if suf ≠ [] ∧ suf.isSuffixOf cs then
      stripSuffixRepeatAux fuel (cs.take (cs.length - suf.length)) suf
    else cs

/-- Rust `s.trim_end_matches(suf)`. -/
def stripSuffixRepeat (s suf : String) : String :=
  String.mk (stripSuffixRepeatAux s.data.length s.data suf.data)

/-- Character-level splitter used to model Rust `split`: a delimiter ends the
current token, and adjacent delimiters produce empty tokens. -/
def splitChars (p : Char → Bool) : List Char → List Char → List (List Char)
  | [], acc => [acc.reverse]
  | c :: rest, acc =>
    if p c then acc.reverse :: splitChars p rest []
    else splitChars p rest (c :: acc)

/-- Rust `s.split(p)` on strings. -/
def strSplit (s : String) (p : Char → Bool) : List String :=
  (splitChars p s.data []).map String.mk

/-- Words of a line, modelling Rust `split_whitespace` (no empty items). -/
def splitWords (s : String) : List String :=
  (strSplit s Char.isWhitespace).filter (fun w => w ≠ "")

/-- Rust `s.trim()`: whitespace removed from both ends. -/
def strTrim (s : String) : String :=
  String.mk
    (((s.data.dropWhile Char.isWhitespace).reverse.dropWhile Char.isWhitespace).reverse)

/-- Rust `s.to_lowercase()` on the ASCII alphabet these logs use. -/
def strToLower (s : String) : String :=
  String.mk (s.data.map Char.toLower)

/-- Rust `s.ends_with(suf)`. -/
def strEndsWith (s suf : String) : Bool :=
  suf.data.isSuffixOf s.data

/-- Model of `serde_json::Value`. Objects are association lists; lookup takes
the first binding, matching the unique-key maps serde produces. -/
inductive Json where
  | null
  | bool (b : Bool)
  | num (n : Int)
  | str (s : String)
  | arr (elems : List Json)
  | obj (fields : List (String × Json))

/-- First binding for a key in a JSON object body. -/
def lookupField : List (String × Json) → String → Option Json
  | [], _ => none
  | (k, v) :: rest, key => if k = key then some v else lookupField rest key

/-- Model of `Value::get(key)`: `None` on non-objects. -/
def Json.get : Json → String → Option Json
  | .obj fields, key => lookupField fields key
  | _, _ => none

/-- Model of `Value::as_u64`. -/
def Json.asU64 : Json → Option Nat
  | .num n => if 0 ≤ n ∧ n < 2 ^ 64 then some n.toNat else none
  | _ => none

/-- Model of `Value::as_str`. -/
def Json.asStr : Json → Option String
  | .str s => some s
  | _ => none

/-- Model of `Value::as_object`, exposing the field list. -/
def Json.asObject : Json → Option (List (String × Json))
  | .obj fields => some fields
  | _ => none

/-- Model of `Value::as_array`. -/
def Json.asArray : Json → Option (List Json)
  | .arr elems => some elems
  | _ => none

/-- Outbound HTTP request as the core builds it: URL plus header list. -/
structure HttpRequest where
  url : String
  headers : List (String × String)
deriving DecidableEq

/-- Outcome of `reqwest` `send()` followed by body handling: either a transport
error, or a response with a success flag and a body that may or may not parse
as JSON (`none` models `response.json()` failing). -/
inductive SendResult where
  | transportError (msg : String)
  | response (success : Bool) (body : Option Json)

/-- Management request built by `poll_oauth_status` (lib.rs lines 795-804). -/
def pollRequest (port : Nat) (oauth_state : String) : HttpRequest :=
  { url := ("http://localhost:" ++ toString port) ++
      ("/v0/management/get-auth-status?state=" ++ oauth_state),
    headers := [("X-Management-Key", "proxypal-mgmt-key")] }

/-- Response handling of `poll_oauth_status` (lib.rs lines 788-820): transport
errors and body-parse failures propagate as errors, a non-success status yields
`false`, and otherwise the `status` field is compared against `"ok"` with
`"wait"` as the missing-field default. -/
def poll_oauth_status (resp : SendResult) : Except String Bool :=
  match resp with
  | .transportError e => .error ("Failed to poll OAuth status: " ++ e)
  | .response success body =>
    if success = false then .ok false
    else
      match body with
      | none => .error "Failed to parse response"
      | some j => .ok ((((j.get "status").bind Json.asStr).getD "wait") == "ok")

/-- C1 counterexample: a transport error makes `poll_oauth_status` return an
error, not the soft-fail `false` the claim requires. -/
theorem c1_poll_transport_error_counterexample :
    poll_oauth_status (.transportError "connection refused") =
      .error "Failed to poll OAuth status: connection refused" ∧
    poll_oauth_status (.transportError "connection refused") ≠ .ok false := by
  constructor
  · rfl
  · intro h
    simp [poll_oauth_status] at h

/-- C1 (amended): a non-success HTTP response yields `false` whatever the body;
a parsed body yields `true` exactly when its `status` field equals `"ok"`
(missing field defaults to `"wait"`, hence `false`); a transport error yields
an error rather than `false`; the mocked `wait`/`ok` bodies behave as the spec
examples state. -/
theorem c1_poll_oauth_status_soft_fail (b : Option Json) (j : Json) (msg s : String) :
    poll_oauth_status (.response false b) = .ok false ∧
    poll_oauth_status (.transportError msg) =
      .error ("Failed to poll OAuth status: " ++ msg) ∧
    ((j.get "status").bind Json.asStr = some s →
      poll_oauth_status (.response true (some j)) = .ok (s == "ok")) ∧
    (j.get "status" = none →
      poll_oauth_status (.response true (some j)) = .ok false) ∧
    poll_oauth_status (.response true (some (Json.obj [("status", .str "wait")]))) =
      .ok false ∧
    poll_oauth_status (.response true (some (Json.obj [("status", .str "ok")]))) =
      .ok true := by
  refine ⟨rfl, rfl, ?_, ?_, rfl, rfl⟩
  · intro h
    simp [poll_oauth_status, h]
  · intro h
    simp [poll_oauth_status, h]

/-- C1 witness: the amended theorem applied at a concrete body carrying
`status = "done"`, discharging both hypothetical branches. -/
theorem c1_poll_witness :
    poll_oauth_status (.response true (some (Json.obj [("status", .str "done")]))) =
      .ok ("done" == "ok") ∧
    poll_oauth_status (.response true (some (Json.obj [("count", .num 3)]))) =
      .ok false := by
  constructor
  · exact (c1_poll_oauth_status_soft_fail none (Json.obj [("status", .str "done")])
      "x" "done").2.2.1 rfl
  · exact (c1_poll_oauth_status_soft_fail none (Json.obj [("count", .num 3)])
      "x" "done").2.2.2.1 rfl

/-- Structured request event (lib.rs lines 21-34); `u32` token counts and the
`u64` timestamp are `Nat`. -/
structure RequestLog where
  id : String
  timestamp : Nat
  provider : String
  model : String
  method : String
  path : String
  status : Nat
  duration_ms : Nat
  tokens_in : Option Nat
  tokens_out : Option Nat
deriving DecidableEq

/-- Status-code extraction (lib.rs lines 383-395): split on whitespace and the
bracket/colon/arrow delimiters, take the first token parsing as a `u16` in
`[100, 600)`. -/
def extract_status_code (line : String) : Option Nat :=
  (strSplit line (fun c =>
      c.isWhitespace || c = ')' || c = '(' || c = ':' || c = '>')).findSome?
    (fun word =>
      match parseU16 word with
      | some code => if 100 ≤ code ∧ code < 600 then some code else none
      | none => none)

/-- Duration extraction (lib.rs lines 397-412): scan whitespace-separated words
for a `ms` suffix (integer milliseconds) or a bare `s` suffix (decimal seconds
scaled by 1000 and truncated, as the Rust `as u64` cast of a non-negative value
does; a negative value truncates to 0 exactly as the saturating cast does). -/
def extract_duration (line : String) : Option Nat :=
  (splitWords line).findSome? (fun word =>
    if strEndsWith word "ms" then
      parseU64 (stripSuffixRepeat word "ms")
    else if strEndsWith word "s" ∧ ¬ strEndsWith word "ms" = true then
      (parseDecimal (stripSuffixRepeat word "s")).map
        (fun secs => (Rat.floor (secs * 1000)).toNat)
    else none)

/-- Provider classification chain of `parse_request_log` (lib.rs lines 320-356). -/
def classifyProvider (lt ll : String) : String :=
  if strContains lt "claude" || strContains lt "anthropic" ||
     strContains lt "sonnet" || strContains lt "opus" || strContains lt "haiku" then
    "claude"
  else if strContains lt "gpt" || strContains lt "codex" || strContains lt "openai" then
    "openai"
  else if strContains lt "gemini" || strContains lt "google" then "gemini"
  else if strContains lt "qwen" then "qwen"
  else if strContains lt "iflow" then "iflow"
  else if strContains lt "vertex" then "vertex"
  else if strContains lt "antigravity" then "antigravity"
  else if strContains ll "-> claude" || strContains ll "[claude]" then "claude"
  else if strContains ll "-> openai" || strContains ll "[openai]" ||
          strContains ll "[codex]" then "openai"
  else if strContains ll "-> gemini" || strContains ll "[gemini]" then "gemini"
  else if strContains ll "-> qwen" || strContains ll "[qwen]" then "qwen"
  else if strContains ll "-> iflow" || strContains ll "[iflow]" then "iflow"
  else if strContains ll "-> vertex" || strContains ll "[vertex]" then "vertex"
  else if strContains ll "-> antigravity" || strContains ll "[antigravity]" then
    "antigravity"
  else "unknown"

/-- Log-line parser (lib.rs lines 267-381). The Rust function reads the wall
clock for `timestamp` and mutates the caller's counter; here `now` is passed in
and the updated counter is returned alongside the optional event. -/
def parse_request_log (line : String) (counter : Nat) (now : Nat) :
    Option RequestLog × Nat :=
  let lt := strTrim line
  let has_method := strContains lt "POST" || strContains lt "GET" ||
    strContains lt "PUT" || strContains lt "DELETE"
  let has_api_path := strContains lt "/v1/chat/completions" ||
    strContains lt "/v1/messages" || strContains lt "/v1/completions"
  if ¬ (has_method && has_api_path) = true then (none, counter)
  else
    let ll := strToLower lt
    if strContains ll "listening" || strContains ll "starting" ||
       strContains ll "loaded" || strContains ll "config" ||
       strContains ll "error:" || strContains ll "warn:" then (none, counter)
    else
      let method :=
        if strContains lt "POST" then "POST"
        else if strContains lt "GET" then "GET"
        else if strContains lt "PUT" then "PUT"
        else if strContains lt "DELETE" then "DELETE"
        else "POST"
      let path :=
        if strContains lt "/v1/chat/completions" then "/v1/chat/completions"
        else if strContains lt "/v1/messages" then "/v1/messages"
        else if strContains lt "/v1/completions" then "/v1/completions"
        else "/v1/chat/completions"
      let provider := classifyProvider lt ll
      let status := (extract_status_code lt).getD 200
      let duration_ms := (extract_duration lt).getD 0
      let counter1 := counter + 1
      (some { id := "req_" ++ toString counter1, timestamp := now,
              provider := provider, model := "auto", method := method,
              path := path, status := status, duration_ms := duration_ms,
              tokens_in := none, tokens_out := none }, counter1)

/-- C9: the canonical request line parses to POST `/v1/chat/completions` with
status 200 and 123 ms (for any counter value and timestamp), while the
`listening` startup line produces no event; the line indeed carries the
`"listening"` noise marker the filter rejects. -/
theorem c9_parse_request_log (c now : Nat) :
    parse_request_log "POST /v1/chat/completions 200 123ms" c now =
      (some { id := "req_" ++ toString (c + 1), timestamp := now,
              provider := "unknown", model := "auto", method := "POST",
              path := "/v1/chat/completions", status := 200, duration_ms := 123,
              tokens_in := none, tokens_out := none }, c + 1) ∧
    parse_request_log "Server listening on /v1/chat/completions" c now =
      (none, c) ∧
    strContains (strToLower (strTrim "Server listening on /v1/chat/completions"))
      "listening" = true := by
  refine ⟨?_, rfl, rfl⟩
  rfl

/-- Wrap-around modulus of Rust `u64` arithmetic. -/
def u64Mod : Nat := 2 ^ 64

namespace Lib

/-- Cost table of lib.rs `estimate_request_cost` (lines 204-224): rates per
million tokens keyed by full version substrings such as `"claude-3-opus"`,
with `f64` arithmetic carried exactly over `ℚ`. -/
def estimate_request_cost (model : String) (tokens_in tokens_out : Nat) : ℚ :=
  let m := strToLower model
  let rates : ℚ × ℚ :=
    if strContains m "claude-3-opus" then (15, 75)
    else if strContains m "claude-3-sonnet" || strContains m "claude-3.5-sonnet" then
      (3, 15)
    else if strContains m "claude-3-haiku" || strContains m "claude-3.5-haiku" then
      (0.25, 1.25)
    else if strContains m "gpt-4o" then (2.5, 10)
    else if strContains m "gpt-4-turbo" || strContains m "gpt-4" then (10, 30)
    else if strContains m "gpt-3.5" then (0.5, 1.5)
    else if strContains m "gemini-1.5-pro" then (1.25, 5)
    else if strContains m "gemini-1.5-flash" then (0.075, 0.30)
    else if strContains m "gemini-2" then (0.10, 0.40)
    else if strContains m "qwen" then (0.50, 2)
    else (1, 3)
  (tokens_in : ℚ) / 1000000 * rates.1 + (tokens_out : ℚ) / 1000000 * rates.2

end Lib

namespace Utils

/-- Cost table of utils.rs `estimate_request_cost` (lines 4-26): family+tier
substring pairs (`"claude"` with `"opus"` and so on) checked before bare
family matches. -/
def estimate_request_cost (model : String) (tokens_in tokens_out : Nat) : ℚ :=
  let m := strToLower model
  let rates : ℚ × ℚ :=
    if strContains m "claude" && strContains m "opus" then (15, 75)
    else if strContains m "claude" && strContains m "sonnet" then (3, 15)
    else if strContains m "claude" && strContains m "haiku" then (0.25, 1.25)
    else if strContains m "gpt-5" then (15, 45)
    else if strContains m "gpt-4o" then (2.5, 10)
    else if strContains m "gpt-4-turbo" || strContains m "gpt-4" then (10, 30)
    else if strContains m "gpt-3.5" then (0.5, 1.5)
    else if strContains m "gemini" && strContains m "pro" then (1.25, 5)
    else if strContains m "gemini" && strContains m "flash" then (0.075, 0.30)
    else if strContains m "gemini-2" then (0.10, 0.40)
    else if strContains m "qwen" then (0.50, 2)
    else (1, 3)
  (tokens_in : ℚ) / 1000000 * rates.1 + (tokens_out : ℚ) / 1000000 * rates.2

end Utils

/-- Request history record (lib.rs lines 170-177); totals are `u64` counters
plus an `f64` cost carried over `ℚ`. -/
structure RequestHistory where
  requests : List RequestLog
  total_tokens_in : Nat
  total_tokens_out : Nat
  total_cost_usd : ℚ
deriving DecidableEq

/-- Rust `RequestHistory::default()`: empty sequence, zero totals. -/
def RequestHistory.empty : RequestHistory :=
  { requests := [], total_tokens_in := 0, total_tokens_out := 0, total_cost_usd := 0 }

/-- Trimming performed by `save_request_history` (lib.rs lines 192-202): the
persisted copy keeps only the last 100 requests (`split_off(len - 100)`),
leaving the totals untouched. -/
def save_request_history (h : RequestHistory) : RequestHistory :=
  if h.requests.length > 100 then
    { h with requests := h.requests.drop (h.requests.length - 100) }
  else h

/-- Totals-and-append step of `add_request_to_history` (lib.rs lines 690-711)
before the save: cost from the lib.rs table, token totals bumped with `u64`
wrap-around, event appended. -/
def add_request_to_history (h : RequestHistory) (r : RequestLog) : RequestHistory :=
  let tokens_in := r.tokens_in.getD 0
  let tokens_out := r.tokens_out.getD 0
  let cost := Lib.estimate_request_cost r.model tokens_in tokens_out
  { requests := h.requests ++ [r],
    total_tokens_in := (h.total_tokens_in + tokens_in) % u64Mod,
    total_tokens_out := (h.total_tokens_out + tokens_out) % u64Mod,
    total_cost_usd := h.total_cost_usd + cost }

/-- One accepted event as persisted: `add_request_to_history` loads the stored
history, updates it and saves the trimmed copy, so the on-disk state steps by
add-then-trim. -/
def historyStep (h : RequestHistory) (r : RequestLog) : RequestHistory :=
  save_request_history (add_request_to_history h r)

/-- Persisted history after a sequence of accepted events starting from the
empty default. -/
def runHistory (events : List RequestLog) : RequestHistory :=
  events.foldl historyStep RequestHistory.empty

/-- Input-token sum over all events ever added. -/
def sumTokensIn (events : List RequestLog) : Nat :=
  (events.map (fun r => r.tokens_in.getD 0)).sum

/-- Output-token sum over all events ever added. -/
def sumTokensOut (events : List RequestLog) : Nat :=
  (events.map (fun r => r.tokens_out.getD 0)).sum

/-- Cost sum over all events ever added, at the lib.rs rates. -/
def sumCost (events : List RequestLog) : ℚ :=
  (events.map (fun r =>
    Lib.estimate_request_cost r.model (r.tokens_in.getD 0) (r.tokens_out.getD 0))).sum

/-- Requests after one persisted step: append the event, then keep the last 100. -/
theorem historyStep_requests (h : RequestHistory) (r : RequestLog) :
    (historyStep h r).requests =
      (h.requests ++ [r]).drop (h.requests.length + 1 - 100) := by
  unfold historyStep save_request_history add_request_to_history
  split
  next hgt =>
    simp [List.length_append]
  next hle =>
    have h0 : h.requests.length + 1 - 100 = 0 := by
      simp [List.length_append] at hle
      omega
    simp [h0]

/-- The 100-entry bound is preserved by every persisted step. -/
theorem historyStep_length_le (h : RequestHistory) (r : RequestLog)
    (hle : h.requests.length ≤ 100) : (historyStep h r).requests.length ≤ 100 := by
  rw [historyStep_requests]
  simp [List.length_drop, List.length_append]
  omega

/-- Dropping before or after an append composes additively. -/
theorem drop_append_drop {α : Type} (L M : List α) (d k : Nat) (hd : d ≤ L.length) :
    ((L.drop d) ++ M).drop k = (L ++ M).drop (d + k) := by
  rw [List.drop_append_eq_append_drop, List.drop_append_eq_append_drop,
    List.drop_drop]
  congr 1
  rw [List.length_drop]
  congr 1
  omega

/-- Stored requests after folding events over any in-bound starting history:
always the last 100 of start-plus-events. -/
theorem foldl_historyStep_requests (evs : List RequestLog) :
    ∀ h : RequestHistory, h.requests.length ≤ 100 →
      (List.foldl historyStep h evs).requests =
        (h.requests ++ evs).drop (h.requests.length + evs.length - 100) := by
  induction evs with
  | nil =>
    intro h hle
    simp only [List.foldl_nil, List.append_nil, List.length_nil, Nat.add_zero,
      Nat.sub_eq_zero_of_le hle, List.drop_zero]
  | cons r evs ih =>
    intro h hle
    rw [List.foldl_cons, ih _ (historyStep_length_le h r hle), historyStep_requests]
    rw [drop_append_drop _ _ _ _ (by simp [List.length_append]; omega)]
    rw [List.append_assoc, List.singleton_append]
    congr 1
    simp [List.length_drop, List.length_append, List.length_cons]
    omega

/-- Input-token total after one persisted step (wrap-around add). -/
theorem historyStep_tin (h : RequestHistory) (r : RequestLog) :
    (historyStep h r).total_tokens_in =
      (h.total_tokens_in + r.tokens_in.getD 0) % u64Mod := by
  unfold historyStep save_request_history add_request_to_history
  split <;> rfl

/-- Output-token total after one persisted step (wrap-around add). -/
theorem historyStep_tout (h : RequestHistory) (r : RequestLog) :
    (historyStep h r).total_tokens_out =
      (h.total_tokens_out + r.tokens_out.getD 0) % u64Mod := by
  unfold historyStep save_request_history add_request_to_history
  split <;> rfl

/-- Cost total after one persisted step: trimming never touches it. -/
theorem historyStep_cost (h : RequestHistory) (r : RequestLog) :
    (historyStep h r).total_cost_usd =
      h.total_cost_usd + Lib.estimate_request_cost r.model
        (r.tokens_in.getD 0) (r.tokens_out.getD 0) := by
  unfold historyStep save_request_history add_request_to_history
  split <;> rfl

/-- Input totals accumulate the whole event sequence modulo `2 ^ 64`. -/
theorem foldl_historyStep_tin (evs : List RequestLog) :
    ∀ h : RequestHistory, h.total_tokens_in < u64Mod →
      (List.foldl historyStep h evs).total_tokens_in =
        (h.total_tokens_in + sumTokensIn evs) % u64Mod := by
  induction evs with
  | nil =>
    intro h hlt
    simp [sumTokensIn, Nat.mod_eq_of_lt hlt]
  | cons r evs ih =>
    intro h hlt
    have hlt2 : (historyStep h r).total_tokens_in < u64Mod := by
      rw [historyStep_tin]
      exact Nat.mod_lt _ (by norm_num [u64Mod])
    rw [List.foldl_cons, ih _ hlt2, historyStep_tin, Nat.mod_add_mod]
    congr 1
    simp [sumTokensIn]
    omega

/-- Output totals accumulate the whole event sequence modulo `2 ^ 64`. -/
theorem foldl_historyStep_tout (evs : List RequestLog) :
    ∀ h : RequestHistory, h.total_tokens_out < u64Mod →
      (List.foldl historyStep h evs).total_tokens_out =
        (h.total_tokens_out + sumTokensOut evs) % u64Mod := by
  induction evs with
  | nil =>
    intro h hlt
    simp [sumTokensOut, Nat.mod_eq_of_lt hlt]
  | cons r evs ih =>
    intro h hlt
    have hlt2 : (historyStep h r).total_tokens_out < u64Mod := by
      rw [historyStep_tout]
      exact Nat.mod_lt _ (by norm_num [u64Mod])
    rw [List.foldl_cons, ih _ hlt2, historyStep_tout, Nat.mod_add_mod]
    congr 1
    simp [sumTokensOut]
    omega

/-- Cost totals accumulate the whole event sequence exactly. -/
theorem foldl_historyStep_cost (evs : List RequestLog) :
    ∀ h : RequestHistory,
      (List.foldl historyStep h evs).total_cost_usd =
        h.total_cost_usd + sumCost evs := by
  induction evs with
  | nil =>
    intro h
    simp [sumCost]
  | cons r evs ih =>
    intro h
    rw [List.foldl_cons, ih, historyStep_cost]
    simp [sumCost]
    ring

/-- C2: after every add-and-persist step the stored sequence is exactly the
most recent 100 events (so at most 100, and exactly 100 once more than 100
events were added), while the three running totals reflect every event ever
added, unaffected by trimming (token sums below the `u64` wrap). -/
theorem c2_history_window_and_totals (events : List RequestLog)
    (hin : sumTokensIn events < u64Mod) (hout : sumTokensOut events < u64Mod) :
    (runHistory events).requests = events.drop (events.length - 100) ∧
    (runHistory events).requests.length = min events.length 100 ∧
    (runHistory events).total_tokens_in = sumTokensIn events ∧
    (runHistory events).total_tokens_out = sumTokensOut events ∧
    (runHistory events).total_cost_usd = sumCost events := by
  have hreq : (runHistory events).requests = events.drop (events.length - 100) := by
    have h1 := foldl_historyStep_requests events RequestHistory.empty
      (by simp [RequestHistory.empty])
    simpa [runHistory, RequestHistory.empty] using h1
  refine ⟨hreq, ?_, ?_, ?_, ?_⟩
  · rw [hreq, List.length_drop]
    omega
  · have h2 := foldl_historyStep_tin events RequestHistory.empty
      (by norm_num [RequestHistory.empty, u64Mod])
    simpa [runHistory, RequestHistory.empty, Nat.mod_eq_of_lt hin] using h2
  · have h3 := foldl_historyStep_tout events RequestHistory.empty
      (by norm_num [RequestHistory.empty, u64Mod])
    simpa [runHistory, RequestHistory.empty, Nat.mod_eq_of_lt hout] using h3
  · have h4 := foldl_historyStep_cost events RequestHistory.empty
    simpa [runHistory, RequestHistory.empty] using h4

/-- Sample accepted event used by the C2 witness. -/
def sampleEventA : RequestLog :=
  { id := "req_1", timestamp := 10, provider := "claude", model := "claude-3-opus",
    method := "POST", path := "/v1/messages", status := 200, duration_ms := 12,
    tokens_in := some 1000, tokens_out := some 2000 }

/-- Second sample accepted event used by the C2 witness. -/
def sampleEventB : RequestLog :=
  { id := "req_2", timestamp := 20, provider := "openai", model := "gpt-4o",
    method := "POST", path := "/v1/chat/completions", status := 200,
    duration_ms := 30, tokens_in := some 500, tokens_out := none }

/-- C2 witness: the window-and-totals theorem applied to a concrete two-event
run, with both token-sum bounds discharged by evaluation. -/
theorem c2_history_witness :
    (runHistory [sampleEventA, sampleEventB]).requests =
      [sampleEventA, sampleEventB].drop ([sampleEventA, sampleEventB].length - 100) ∧
    (runHistory [sampleEventA, sampleEventB]).requests.length =
      min [sampleEventA, sampleEventB].length 100 ∧
    (runHistory [sampleEventA, sampleEventB]).total_tokens_in =
      sumTokensIn [sampleEventA, sampleEventB] ∧
    (runHistory [sampleEventA, sampleEventB]).total_tokens_out =
      sumTokensOut [sampleEventA, sampleEventB] ∧
    (runHistory [sampleEventA, sampleEventB]).total_cost_usd =
      sumCost [sampleEventA, sampleEventB] :=
  c2_history_window_and_totals [sampleEventA, sampleEventB] (by decide) (by decide)

/-- Event with a model name containing `"claude"` and `"opus"` but not the
full lib.rs key `"claude-3-opus"`. -/
def opusEvent : RequestLog :=
  { id := "req_1", timestamp := 0, provider := "claude", model := "claude-opus-4",
    method := "POST", path := "/v1/messages", status := 200, duration_ms := 0,
    tokens_in := some 1000000, tokens_out := some 1000000 }

/-- C8 counterexample: for the model `"claude-opus-4"` (which contains both
`"claude"` and `"opus"`), one accepted event with a million tokens each way
adds cost 4 to the history totals — the lib.rs default 1.0/3.0 rate — not the
90 the claimed 15.0/75.0 family+tier rate would give. -/
theorem c8_opus_pricing_counterexample :
    strContains (strToLower opusEvent.model) "claude" = true ∧
    strContains (strToLower opusEvent.model) "opus" = true ∧
    (historyStep RequestHistory.empty opusEvent).total_cost_usd = 4 ∧
    ((1000000 : ℚ) / 1000000 * 15 + (1000000 : ℚ) / 1000000 * 75) = 90 ∧
    (4 : ℚ) ≠ 90 := by
  refine ⟨rfl, rfl, ?_, by norm_num, by norm_num⟩
  rw [historyStep_cost]
  have hval : Lib.estimate_request_cost opusEvent.model
      (opusEvent.tokens_in.getD 0) (opusEvent.tokens_out.getD 0) =
      ((1000000 : Nat) : ℚ) / 1000000 * 1 + ((1000000 : Nat) : ℚ) / 1000000 * 3 := rfl
  rw [hval]
  norm_num [RequestHistory.empty]

/-- C8 (amended): the history pipeline prices with the lib.rs table, whose
most specific Claude key is the substring `"claude-3-opus"`: any event whose
lowercased model contains it is charged 15.0/75.0 per million tokens, and that
arm takes precedence over every later arm; the claimed bare `"claude"` plus
`"opus"` combination rate is implemented only by the unused utils.rs variant,
stated here alongside. -/
theorem c8_opus_pricing (h : RequestHistory) (r : RequestLog)
    (hmodel : strContains (strToLower r.model) "claude-3-opus" = true) :
    (historyStep h r).total_cost_usd =
      h.total_cost_usd + ((r.tokens_in.getD 0 : ℚ) / 1000000 * 15 +
        (r.tokens_out.getD 0 : ℚ) / 1000000 * 75) ∧
    (∀ m tin tout, strContains (strToLower m) "claude" = true →
      strContains (strToLower m) "opus" = true →
      Utils.estimate_request_cost m tin tout =
        (tin : ℚ) / 1000000 * 15 + (tout : ℚ) / 1000000 * 75) := by
  constructor
  · rw [historyStep_cost]
    congr 1
    unfold Lib.estimate_request_cost
    simp [hmodel]
  · intro m tin tout h1 h2
    unfold Utils.estimate_request_cost
    simp [h1, h2]

/-- C8 witness: the pricing theorem applied to the concrete `"claude-3-opus"`
event and to `"claude-opus-4"` under the utils.rs table. -/
theorem c8_opus_pricing_witness :
    (historyStep RequestHistory.empty sampleEventA).total_cost_usd =
      RequestHistory.empty.total_cost_usd +
        ((sampleEventA.tokens_in.getD 0 : ℚ) / 1000000 * 15 +
         (sampleEventA.tokens_out.getD 0 : ℚ) / 1000000 * 75) ∧
    Utils.estimate_request_cost "claude-opus-4" 2 3 =
      ((2 : Nat) : ℚ) / 1000000 * 15 + ((3 : Nat) : ℚ) / 1000000 * 75 := by
  have h := c8_opus_pricing RequestHistory.empty sampleEventA (by rfl)
  exact ⟨h.1, h.2 "claude-opus-4" 2 3 (by rfl) (by rfl)⟩

/-- Per-model usage row (lib.rs lines 115-121). -/
structure ModelUsage where
  model : String
  requests : Nat
  tokens : Nat
deriving DecidableEq

/-- Aggregated usage snapshot (lib.rs lines 100-113). -/
structure UsageStats where
  total_requests : Nat
  success_count : Nat
  failure_count : Nat
  total_tokens : Nat
  input_tokens : Nat
  output_tokens : Nat
  requests_today : Nat
  tokens_today : Nat
  models : List ModelUsage
deriving DecidableEq

/-- Rust `UsageStats::default()`: the all-zero snapshot. -/
def UsageStats.zero : UsageStats :=
  { total_requests := 0, success_count := 0, failure_count := 0, total_tokens := 0,
    input_tokens := 0, output_tokens := 0, requests_today := 0, tokens_today := 0,
    models := [] }

/-- Input/output token accumulation over one `details[]` element (lib.rs lines
643-648): absent `tokens` objects or fields contribute nothing. -/
def detailTokens (acc : Nat × Nat) (detail : Json) : Nat × Nat :=
  match detail.get "tokens" with
  | none => acc
  | some tok =>
    ((acc.1 + ((tok.get "input_tokens").bind Json.asU64).getD 0) % u64Mod,
     (acc.2 + ((tok.get "output_tokens").bind Json.asU64).getD 0) % u64Mod)

/-- Deduplicating model accumulation (lib.rs lines 651-661): the first row with
the same name is bumped in place, otherwise a new row is pushed. -/
def addModelEntry : List ModelUsage → String → Nat → Nat → List ModelUsage
  | [], name, reqs, toks => [{ model := name, requests := reqs, tokens := toks }]
  | m :: rest, name, reqs, toks =>
    if m.model = name then
      { m with requests := (m.requests + reqs) % u64Mod,
               tokens := (m.tokens + toks) % u64Mod } :: rest
    else m :: addModelEntry rest name reqs toks

/-- Per-model walk body (lib.rs lines 637-662). -/
def processModel (st : List ModelUsage × Nat × Nat) (entry : String × Json) :
    List ModelUsage × Nat × Nat :=
  let models := st.1
  let inTok := st.2.1
  let outTok := st.2.2
  let reqs := ((entry.2.get "total_requests").bind Json.asU64).getD 0
  let toks := ((entry.2.get "total_tokens").bind Json.asU64).getD 0
  let tokenTotals :=
    match (entry.2.get "details").bind Json.asArray with
    | none => (inTok, outTok)
    | some details => details.foldl detailTokens (inTok, outTok)
  (addModelEntry models entry.1 reqs toks, tokenTotals.1, tokenTotals.2)

/-- Per-endpoint walk body (lib.rs lines 635-664): endpoints without a
`models` object are skipped. -/
def processEndpoint (st : List ModelUsage × Nat × Nat) (entry : String × Json) :
    List ModelUsage × Nat × Nat :=
  match (entry.2.get "models").bind Json.asObject with
  | none => st
  | some models_obj => models_obj.foldl processModel st

/-- Stable descending sort by request count (lib.rs line 668). -/
def sortModelsByRequests (models : List ModelUsage) : List ModelUsage :=
  models.mergeSort (fun a b => b.requests ≤ a.requests)

/-- Snapshot computed from a parsed usage body (lib.rs lines 604-680): the
optional `usage` envelope is unwrapped, every numeric field defaults to 0, the
two day-bucket maps are read at the `today` key, and the `apis` walk collects
per-model rows plus input/output token sums. -/
def usageFromJson (today : String) (json : Json) : UsageStats :=
  let usage := (json.get "usage").getD json
  let walked :=
    match (usage.get "apis").bind Json.asObject with
    | none => ([], 0, 0)
    | some apis => apis.foldl processEndpoint ([], 0, 0)
  { total_requests := ((usage.get "total_requests").bind Json.asU64).getD 0,
    success_count := ((usage.get "success_count").bind Json.asU64).getD 0,
    failure_count := ((usage.get "failure_count").bind Json.asU64).getD 0,
    total_tokens := ((usage.get "total_tokens").bind Json.asU64).getD 0,
    input_tokens := walked.2.1,
    output_tokens := walked.2.2,
    requests_today := ((((usage.get "requests_by_day").bind Json.asObject).bind
      (fun m => lookupField m today)).bind Json.asU64).getD 0,
    tokens_today := ((((usage.get "tokens_by_day").bind Json.asObject).bind
      (fun m => lookupField m today)).bind Json.asU64).getD 0,
    models := sortModelsByRequests walked.1 }

/-- Usage fetch (lib.rs lines 573-681): a stopped proxy short-circuits to the
zero snapshot, a transport error or unparsable body is an error, a non-success
response is the zero snapshot, and a parsed body goes through `usageFromJson`. -/
def get_usage_stats (running : Bool) (resp : Option (Bool × Option Json))
    (today : String) : Except String UsageStats :=
  if running = false then .ok UsageStats.zero
  else
    match resp with
    | none => .error "Failed to fetch usage"
    | some (success, body) =>
      if success = false then .ok UsageStats.zero
      else
        match body with
        | none => .error "Failed to parse usage response"
        | some json => .ok (usageFromJson today json)

/-- C5 counterexample: with the sidecar running and an HTTP 200 response whose
body is not valid JSON, the usage fetch returns an error instead of tolerating
the malformed remote data. -/
theorem c5_usage_malformed_counterexample :
    get_usage_stats true (some (true, none)) "2026-10-12" =
      .error "Failed to parse usage response" ∧
    (∀ s : UsageStats, get_usage_stats true (some (true, none)) "2026-10-12" ≠ .ok s) := by
  constructor
  · rfl
  · intro s h
    simp [get_usage_stats] at h

/-- C5 (amended): once the body parses as JSON the fetch never errors, whatever
the JSON shape; a JSON value with no object structure yields the all-zero
snapshot; an object missing `total_requests` (and the `usage` envelope) reports
0 for it; a missing `apis` object yields no model rows and zero token splits.
A body that fails JSON parsing, however, is reported as an error. -/
theorem c5_usage_stats_tolerant (today : String) (j : Json)
    (fields : List (String × Json)) :
    get_usage_stats true (some (true, some j)) today = .ok (usageFromJson today j) ∧
    get_usage_stats true (some (false, some j)) today = .ok UsageStats.zero ∧
    usageFromJson today Json.null = UsageStats.zero ∧
    (lookupField fields "usage" = none → lookupField fields "total_requests" = none →
      (usageFromJson today (Json.obj fields)).total_requests = 0) ∧
    (lookupField fields "usage" = none → lookupField fields "apis" = none →
      (usageFromJson today (Json.obj fields)).models = [] ∧
      (usageFromJson today (Json.obj fields)).input_tokens = 0 ∧
      (usageFromJson today (Json.obj fields)).output_tokens = 0) ∧
    get_usage_stats true (some (true, none)) today =
      .error "Failed to parse usage response" := by
  refine ⟨rfl, rfl, ?_, ?_, ?_, rfl⟩
  · simp [usageFromJson, Json.get, UsageStats.zero, sortModelsByRequests,
      List.mergeSort_nil, lookupField]
  · intro h1 h2
    simp [usageFromJson, Json.get, h1, h2]
  · intro h1 h2
    refine ⟨?_, ?_, ?_⟩ <;>
      simp [usageFromJson, Json.get, h1, h2, sortModelsByRequests, List.mergeSort_nil]

/-- C5 witness: the tolerance theorem applied to a concrete partial body
`{"success_count": 7}` carrying neither envelope nor totals nor apis. -/
theorem c5_usage_stats_witness :
    (usageFromJson "2026-10-12" (Json.obj [("success_count", .num 7)])).total_requests
      = 0 ∧
    (usageFromJson "2026-10-12" (Json.obj [("success_count", .num 7)])).models = [] := by
  have h := c5_usage_stats_tolerant "2026-10-12" Json.null
    [("success_count", .num 7)]
  exact ⟨h.2.2.2.1 rfl rfl, (h.2.2.2.2.1 rfl rfl).1⟩

namespace ConfigStore

/-- Modelled from the spec: the amp model-mapping entries carried by the
provider records live in `src-tauri/src/types/` which is not under src; only
their `name` is observed (by the migration's logging). -/
structure AmpModelEntry where
  name : String
deriving DecidableEq

/-- Provider record of the deprecated single-provider field: an identifier
(possibly empty, then regenerated on migration), a name, and model mappings;
modelled from the spec and the fields `config.rs` reads (`id`, `name`,
`models`). -/
structure AmpOpenAIProvider where
  id : String
  name : String
  models : List AmpModelEntry
deriving DecidableEq

/-- Modelled from the spec: `generate_uuid` (in `src-tauri/src/types/amp.rs`,
not under src) produces a fresh non-empty identifier; modelled as a fixed
non-empty placeholder. -/
def generate_uuid : String := "generated-uuid"

/-- Modelled from the spec: opaque configuration payload types from
`src-tauri/src/types/` (not under src); the round-trip claim only needs them
to carry comparable values. -/
structure OpaquePayload where
  raw : String
deriving DecidableEq

/-- Empty payload used by `Default`. -/
def OpaquePayload.default : OpaquePayload := { raw := "" }

/-- Versioned application configuration (config.rs lines 9-85); `u16`/`u8`/`u32`
fields are `Nat` and the `i32` retry interval is `Int`. -/
structure AppConfig where
  port : Nat
  auto_start : Bool
  launch_at_login : Bool
  debug : Bool
  proxy_url : String
  request_retry : Nat
  quota_switch_project : Bool
  quota_switch_preview_model : Bool
  usage_stats_enabled : Bool
  request_logging : Bool
  logging_to_file : Bool
  logs_max_total_size_mb : Nat
  config_version : Nat
  amp_api_key : String
  amp_model_mappings : List AmpModelEntry
  amp_openai_provider : Option AmpOpenAIProvider
  amp_openai_providers : List AmpOpenAIProvider
  amp_routing_mode : String
  routing_strategy : String
  copilot : OpaquePayload
  force_model_mappings : Bool
  claude_api_keys : List OpaquePayload
  gemini_api_keys : List OpaquePayload
  codex_api_keys : List OpaquePayload
  vertex_api_keys : List OpaquePayload
  thinking_budget_mode : String
  thinking_budget_custom : Nat
  gemini_thinking_injection : Bool
  reasoning_effort_level : String
  close_to_tray : Bool
  max_retry_interval : Int
  proxy_api_key : String
  management_key : String
  commercial_mode : Bool
  ws_auth : Bool
  ssh_configs : List OpaquePayload
  cloudflare_configs : List OpaquePayload
  disable_control_panel : Bool
deriving DecidableEq

/-- Rust `AppConfig::default()` (config.rs lines 123-165). -/
def AppConfig.default : AppConfig :=
  { port := 8317, auto_start := true, launch_at_login := false, debug := false,
    proxy_url := "", request_retry := 0, quota_switch_project := false,
    quota_switch_preview_model := false, usage_stats_enabled := true,
    request_logging := true, logging_to_file := true,
    logs_max_total_size_mb := 100, config_version := 1, amp_api_key := "",
    amp_model_mappings := [], amp_openai_provider := none,
    amp_openai_providers := [], amp_routing_mode := "mappings",
    routing_strategy := "round-robin", copilot := OpaquePayload.default,
    force_model_mappings := true, claude_api_keys := [], gemini_api_keys := [],
    codex_api_keys := [], vertex_api_keys := [],
    thinking_budget_mode := "medium", thinking_budget_custom := 16000,
    gemini_thinking_injection := true, reasoning_effort_level := "medium",
    close_to_tray := true, max_retry_interval := 0,
    proxy_api_key := "proxypal-local", management_key := "proxypal-mgmt-key",
    commercial_mode := false, ws_auth := false, ssh_configs := [],
    cloudflare_configs := [], disable_control_panel := true }

/-- Migration step of `load_config` (config.rs lines 216-240): `take()` always
clears the deprecated field; only when the provider list is empty is the taken
entry appended, its identifier regenerated if empty. -/
def migrate_config (cfg : AppConfig) : AppConfig :=
  match cfg.amp_openai_provider with
  | none => cfg
  | some old =>
    let taken := { cfg with amp_openai_provider := none }
    if taken.amp_openai_providers.isEmpty then
      let provider_with_id :=
        if old.id = "" then { old with id := generate_uuid } else old
      { taken with amp_openai_providers :=
          taken.amp_openai_providers ++ [provider_with_id] }
    else taken

/-- Model of `load_config` (config.rs lines 211-246) on an already-read file: absent or
unparsable content falls back to the default, parsed content is migrated. -/
def load_config (stored : Option AppConfig) : AppConfig :=
  match stored with
  | none => AppConfig.default
  | some cfg => migrate_config cfg

/-- Save-then-load round trip. The serde JSON serialization of the record (all
fields written by save, all read back by load) is modelled as the identity, so
the round trip is exactly the load-time migration applied to the saved value. -/
def roundTrip (cfg : AppConfig) : AppConfig :=
  load_config (some cfg)

/-- Config carrying the deprecated single-provider field, used against C6. -/
def deprecatedConfig : AppConfig :=
  { AppConfig.default with
      amp_openai_provider := some { id := "", name := "legacy", models := [] } }

end ConfigStore

/-- C6 counterexample: a config whose deprecated `amp_openai_provider` field is
set does not survive save→load unchanged — the loader clears the deprecated
field and moves the entry into the provider list. -/
theorem c6_deprecated_field_counterexample :
    ConfigStore.roundTrip ConfigStore.deprecatedConfig ≠
      ConfigStore.deprecatedConfig ∧
    (ConfigStore.roundTrip ConfigStore.deprecatedConfig).amp_openai_provider =
      none := by
  constructor
  · decide
  · rfl

/-- C6 (amended): a config without the deprecated single-provider field
round-trips unchanged; with the deprecated field set the loaded config instead
has it cleared and, when the provider list was empty, the entry migrated into a
one-element list under a non-empty identifier (regenerated if it was empty),
while a non-empty list drops the deprecated entry; in every case all fields
other than the two amp-provider fields are preserved. -/
theorem c6_config_roundtrip (cfg : ConfigStore.AppConfig) :
    (cfg.amp_openai_provider = none → ConfigStore.roundTrip cfg = cfg) ∧
    (∀ p, cfg.amp_openai_provider = some p →
      (ConfigStore.roundTrip cfg).amp_openai_provider = none ∧
      (cfg.amp_openai_providers = [] →
        (ConfigStore.roundTrip cfg).amp_openai_providers =
          [if p.id = "" then { p with id := ConfigStore.generate_uuid } else p] ∧
        (if p.id = "" then { p with id := ConfigStore.generate_uuid } else p).id
          ≠ "") ∧
      (cfg.amp_openai_providers ≠ [] →
        ConfigStore.roundTrip cfg = { cfg with amp_openai_provider := none })) ∧
    ConfigStore.roundTrip cfg =
      { cfg with
          amp_openai_provider := (ConfigStore.roundTrip cfg).amp_openai_provider,
          amp_openai_providers :=
            (ConfigStore.roundTrip cfg).amp_openai_providers } := by
  refine ⟨?_, ?_, ?_⟩
  · intro hp
    simp [ConfigStore.roundTrip, ConfigStore.load_config, ConfigStore.migrate_config,
      hp]
  · intro p hp
    refine ⟨?_, ?_, ?_⟩
    · cases hempty : cfg.amp_openai_providers <;>
        simp [ConfigStore.roundTrip, ConfigStore.load_config,
          ConfigStore.migrate_config, hp, hempty]
    · intro hnil
      constructor
      · simp [ConfigStore.roundTrip, ConfigStore.load_config,
          ConfigStore.migrate_config, hp, hnil]
      · split
        · simp [ConfigStore.generate_uuid]
        · next hid => exact hid
    · intro hne
      cases hempty : cfg.amp_openai_providers with
      | nil => exact absurd hempty hne
      | cons q qs =>
        simp [ConfigStore.roundTrip, ConfigStore.load_config,
          ConfigStore.migrate_config, hp, hempty]
  · cases hp : cfg.amp_openai_provider with
    | none =>
      simp [ConfigStore.roundTrip, ConfigStore.load_config,
        ConfigStore.migrate_config, hp]
      rw [← hp]
    | some p =>
      cases hempty : cfg.amp_openai_providers <;>
        simp [ConfigStore.roundTrip, ConfigStore.load_config,
          ConfigStore.migrate_config, hp, hempty]

/-- C6 witness: the round-trip theorem applied to the default config (no
deprecated field: identity) and to the concrete deprecated-shape config
(migrated into a one-element list with the generated identifier). -/
theorem c6_config_roundtrip_witness :
    ConfigStore.roundTrip ConfigStore.AppConfig.default =
      ConfigStore.AppConfig.default ∧
    (ConfigStore.roundTrip ConfigStore.deprecatedConfig).amp_openai_provider =
      none ∧
    (ConfigStore.roundTrip ConfigStore.deprecatedConfig).amp_openai_providers =
      [if ("" : String) = "" then
        { ConfigStore.AmpOpenAIProvider.mk "" "legacy" [] with
            id := ConfigStore.generate_uuid }
       else ConfigStore.AmpOpenAIProvider.mk "" "legacy" []] := by
  refine ⟨(c6_config_roundtrip ConfigStore.AppConfig.default).1 rfl, ?_, ?_⟩
  · exact ((c6_config_roundtrip ConfigStore.deprecatedConfig).2.1
      (ConfigStore.AmpOpenAIProvider.mk "" "legacy" []) rfl).1
  · exact (((c6_config_roundtrip ConfigStore.deprecatedConfig).2.1
      (ConfigStore.AmpOpenAIProvider.mk "" "legacy" []) rfl).2.1 rfl).1

namespace ConfigStore

/-- Relevant slice of the filesystem around a save: the contents (if present)
of the target config file and of its temporary sibling. -/
structure FsState where
  target : Option String
  temp : Option String
deriving DecidableEq

/-- Filesystem operations a save performs, recorded as a trace. -/
inductive FsOp where
  | writeFile (path : String) (ok : Bool)
  | renameFile (src dst : String)
deriving DecidableEq

/-- Target path `config.json`. -/
def configPathStr : String := "config.json"

/-- Temporary sibling `path.with_extension("tmp")`, which replaces the `json`
extension. -/
def tempPathStr : String := "config.tmp"

/-- Does the operation write the given path? Renames are not direct writes. -/
def opWritesPath (op : FsOp) (p : String) : Bool :=
  match op with
  | .writeFile q _ => q == p
  | .renameFile _ _ => false

/-- Serialized form of a config. The claim under test concerns the write/rename
protocol, not the JSON text, so the payload is an abbreviated rendering. -/
def serializeConfig (cfg : AppConfig) : String :=
  "port=" ++ toString cfg.port ++ ";version=" ++ toString cfg.config_version ++
    ";managementKey=" ++ cfg.management_key

/-- Environment of one save call: directory creation, the success of each of
the three write attempts, and the rename. -/
structure SaveOracle where
  mkdirOk : Bool
  writeOk : Nat → Bool
  renameOk : Bool

/-- First successful attempt among 0, 1, 2 — the retry loop of
`save_config_to_file` breaks at the first `Ok` write. -/
def firstSuccess (writeOk : Nat → Bool) : Option Nat :=
  if writeOk 0 then some 0
  else if writeOk 1 then some 1
  else if writeOk 2 then some 2
  else none

/-- Result of a save: the returned value, the final filesystem slice, and the
operation trace. -/
structure SaveOutcome where
  res : Except String Unit
  fs : FsState
  trace : List FsOp

/-- Atomic save (config.rs lines 250-304): serialize, write the temp sibling
with up to 3 attempts, then verify the temp file exists and rename it over the
target. A failed write leaves the temp file as it was; the existence check
cannot tell a fresh temp file from a leftover one. -/
def save_config_to_file (cfg : AppConfig) (o : SaveOracle) (fs : FsState) :
    SaveOutcome :=
  if o.mkdirOk = false then
    { res := .error "Failed to create config directory", fs := fs, trace := [] }
  else
    let data := serializeConfig cfg
    let attempt := firstSuccess o.writeOk
    let fs1 : FsState :=
      match attempt with
      | some _ => { fs with temp := some data }
      | none => fs
    let trace1 : List FsOp :=
      match attempt with
      | some i => List.replicate i (FsOp.writeFile tempPathStr false) ++
          [FsOp.writeFile tempPathStr true]
      | none => List.replicate 3 (FsOp.writeFile tempPathStr false)
    match fs1.temp with
    | none =>
      { res := .error "Failed to write config to temp file (attempted 3 times)",
        fs := fs1, trace := trace1 }
    | some content =>
      if o.renameOk = false then
        { res := .error "Failed to rename temp file to config", fs := fs1,
          trace := trace1 }
      else
        { res := .ok (), fs := { target := some content, temp := none },
          trace := trace1 ++ [FsOp.renameFile tempPathStr configPathStr] }

/-- All-attempts-fail oracle with working directory and rename. -/
def allWritesFail : SaveOracle :=
  { mkdirOk := true, writeOk := fun _ => false, renameOk := true }

end ConfigStore

/-- Every operation a save traces is a temp-file write or the final rename. -/
theorem save_config_trace_ops (cfg : ConfigStore.AppConfig)
    (o : ConfigStore.SaveOracle) (fs : ConfigStore.FsState) :
    ∀ op ∈ (ConfigStore.save_config_to_file cfg o fs).trace,
      (∃ b, op = ConfigStore.FsOp.writeFile ConfigStore.tempPathStr b) ∨
      op = ConfigStore.FsOp.renameFile ConfigStore.tempPathStr
        ConfigStore.configPathStr := by
  intro op hop
  by_cases hm : o.mkdirOk = false
  · simp [ConfigStore.save_config_to_file, hm] at hop
  · cases hfst : ConfigStore.firstSuccess o.writeOk with
    | none =>
      cases htemp : fs.temp with
      | none =>
        simp [ConfigStore.save_config_to_file, hm, hfst, htemp,
          List.mem_replicate] at hop
        exact Or.inl ⟨false, hop⟩
      | some c =>
        by_cases hr : o.renameOk = false
        · simp [ConfigStore.save_config_to_file, hm, hfst, htemp, hr,
            List.mem_replicate] at hop
          exact Or.inl ⟨false, hop⟩
        · simp [ConfigStore.save_config_to_file, hm, hfst, htemp, hr,
            List.mem_append, List.mem_replicate] at hop
          rcases hop with hop | hop
          · exact Or.inl ⟨false, hop⟩
          · exact Or.inr hop
    | some i =>
      by_cases hr : o.renameOk = false
      · simp [ConfigStore.save_config_to_file, hm, hfst, hr,
          List.mem_append, List.mem_replicate] at hop
        rcases hop with ⟨h1, hop⟩ | hop
        · exact Or.inl ⟨false, hop⟩
        · exact Or.inl ⟨true, hop⟩
      · simp [ConfigStore.save_config_to_file, hm, hfst, hr,
          List.mem_append, List.mem_replicate] at hop
        rcases hop with ⟨h1, hop⟩ | hop | hop
        · exact Or.inl ⟨false, hop⟩
        · exact Or.inl ⟨true, hop⟩
        · exact Or.inr hop

/-- Filesystem slice with a leftover temp file from an earlier interrupted
save, alongside the current target content. -/
def staleFs : ConfigStore.FsState :=
  { target := some "old-config", temp := some "stale" }

/-- C3 counterexample: with a leftover temp file present, a save whose three
write attempts all fail does not return an error — the stale temp file passes
the existence check and is renamed over the target, replacing its content. -/
theorem c3_stale_temp_counterexample :
    (∀ i, ConfigStore.allWritesFail.writeOk i = false) ∧
    (ConfigStore.save_config_to_file ConfigStore.AppConfig.default
      ConfigStore.allWritesFail staleFs).res = .ok () ∧
    (ConfigStore.save_config_to_file ConfigStore.AppConfig.default
      ConfigStore.allWritesFail staleFs).fs.target = some "stale" ∧
    some "stale" ≠ staleFs.target := by
  refine ⟨fun i => rfl, rfl, rfl, by decide⟩

/-- C3 (amended): provided no temp file is left over from an earlier run, the
save never writes the target path directly (every traced write goes to the
temp sibling, and the target changes only by rename); if all 3 write attempts
fail it returns an error with the target content unchanged; and whenever it
reports success the target holds exactly the serialized config. With a
leftover temp file, the all-attempts-fail case instead renames the stale temp
over the target and reports success. -/
theorem c3_save_config_atomic (cfg : ConfigStore.AppConfig)
    (o : ConfigStore.SaveOracle) (fs : ConfigStore.FsState)
    (hTemp : fs.temp = none) :
    (∀ op ∈ (ConfigStore.save_config_to_file cfg o fs).trace,
      ConfigStore.opWritesPath op ConfigStore.configPathStr = false) ∧
    ((∀ i, i < 3 → o.writeOk i = false) →
      (∃ e, (ConfigStore.save_config_to_file cfg o fs).res = .error e) ∧
      (ConfigStore.save_config_to_file cfg o fs).fs.target = fs.target) ∧
    ((ConfigStore.save_config_to_file cfg o fs).res = .ok () →
      (ConfigStore.save_config_to_file cfg o fs).fs.target =
        some (ConfigStore.serializeConfig cfg)) := by
  refine ⟨?_, ?_, ?_⟩
  · intro op hop
    rcases save_config_trace_ops cfg o fs op hop with ⟨b, rfl⟩ | rfl
    · rfl
    · rfl
  · intro hfail
    have hfst : ConfigStore.firstSuccess o.writeOk = none := by
      simp [ConfigStore.firstSuccess, hfail 0 (by omega), hfail 1 (by omega),
        hfail 2 (by omega)]
    by_cases hm : o.mkdirOk = false
    · exact ⟨⟨"Failed to create config directory",
        by simp [ConfigStore.save_config_to_file, hm]⟩,
        by simp [ConfigStore.save_config_to_file, hm]⟩
    · constructor
      · exact ⟨"Failed to write config to temp file (attempted 3 times)",
          by simp [ConfigStore.save_config_to_file, hm, hfst, hTemp]⟩
      · simp [ConfigStore.save_config_to_file, hm, hfst, hTemp]
  · intro hok
    by_cases hm : o.mkdirOk = false
    · simp [ConfigStore.save_config_to_file, hm] at hok
    · cases hfst : ConfigStore.firstSuccess o.writeOk with
      | none =>
        simp [ConfigStore.save_config_to_file, hm, hfst, hTemp] at hok
      | some i =>
        by_cases hr : o.renameOk = false
        · simp [ConfigStore.save_config_to_file, hm, hfst, hr] at hok
        · simp [ConfigStore.save_config_to_file, hm, hfst, hr]

/-- C3 witness: the atomic-save theorem applied to a clean filesystem slice
(no leftover temp) under the all-attempts-fail oracle: no direct target write,
an error is reported, and the old target content survives. -/
theorem c3_save_config_witness :
    (∀ op ∈ (ConfigStore.save_config_to_file ConfigStore.AppConfig.default
        ConfigStore.allWritesFail
        { target := some "old", temp := none }).trace,
      ConfigStore.opWritesPath op ConfigStore.configPathStr = false) ∧
    (∃ e, (ConfigStore.save_config_to_file ConfigStore.AppConfig.default
        ConfigStore.allWritesFail
        { target := some "old", temp := none }).res = .error e) ∧
    (ConfigStore.save_config_to_file ConfigStore.AppConfig.default
        ConfigStore.allWritesFail
        { target := some "old", temp := none }).fs.target = some "old" := by
  have h := c3_save_config_atomic ConfigStore.AppConfig.default
    ConfigStore.allWritesFail { target := some "old", temp := none } rfl
  exact ⟨h.1, (h.2.1 (fun i _ => rfl)).1, (h.2.1 (fun i _ => rfl)).2⟩

/-- Proxy status record (lib.rs lines 13-18). -/
structure ProxyStatus where
  running : Bool
  port : Nat
  endpoint : String
deriving DecidableEq

/-- Per-provider authentication flags (lib.rs lines 47-56). -/
structure AuthStatus where
  claude : Bool
  openai : Bool
  gemini : Bool
  qwen : Bool
  iflow : Bool
  vertex : Bool
  antigravity : Bool
deriving DecidableEq

/-- Rust `AuthStatus::default()`: everything disconnected. -/
def AuthStatus.default : AuthStatus :=
  { claude := false, openai := false, gemini := false, qwen := false,
    iflow := false, vertex := false, antigravity := false }

/-- Main-crate app configuration (lib.rs lines 73-80). -/
structure AppConfig where
  port : Nat
  auto_start : Bool
  launch_at_login : Bool
deriving DecidableEq

/-- Pending OAuth flow record (lib.rs lines 93-97). -/
structure OAuthState where
  provider : String
  state : String
deriving DecidableEq

/-- Shared application state (lib.rs lines 124-130); the process handle slot
holds an abstract child identifier. -/
structure AppState where
  proxy_status : ProxyStatus
  auth_status : AuthStatus
  config : AppConfig
  pending_oauth : Option OAuthState
  proxy_process : Option Nat
deriving DecidableEq

/-- Environment of one `start_proxy` call: whether writing the generated
sidecar config succeeds, whether the spawn succeeds, and the child identifier
a successful spawn yields. -/
structure StartOracle where
  cfgWriteOk : Bool
  spawnOk : Bool
  newPid : Nat

/-- Result of one `start_proxy` call, with the number of processes spawned. -/
structure StartResult where
  res : Except String ProxyStatus
  state : AppState
  spawns : Nat

/-- Model of `start_proxy` (lib.rs lines 421-531): an already-running status returns
immediately with the current status and no effect; otherwise the sidecar
config is written, the process spawned (failures reported, state untouched),
the child stored, and the status set to running on the configured port. The
concurrent drain task and the settle delay have no bearing on these
transitions and are not modelled. -/
def start_proxy (st : AppState) (o : StartOracle) : StartResult :=
  if st.proxy_status.running then
    { res := .ok st.proxy_status, state := st, spawns := 0 }
  else if o.cfgWriteOk = false then
    { res := .error "Failed to write proxy config", state := st, spawns := 0 }
  else if o.spawnOk = false then
    { res := .error "Failed to spawn sidecar", state := st, spawns := 0 }
  else
    let newStatus : ProxyStatus :=
      { running := true, port := st.config.port,
        endpoint := "http://localhost:" ++ toString st.config.port ++ "/v1" }
    { res := .ok newStatus,
      state := { st with
          proxy_process := some o.newPid,
          proxy_status := newStatus },
      spawns := 1 }

/-- C4: a `start()` on a running proxy returns the current status unchanged
with no spawn and the whole state (process slot included) untouched; from a
stopped state, a successful `start()` followed immediately by another spawns
exactly one process, both calls return the same status value, and the second
leaves the state as the first made it. -/
theorem c4_start_proxy_idempotent (st : AppState) (o1 o2 : StartOracle) :
    (st.proxy_status.running = true →
      start_proxy st o1 = { res := .ok st.proxy_status, state := st, spawns := 0 }) ∧
    (st.proxy_status.running = false →
      ∀ s1, (start_proxy st o1).res = .ok s1 →
        (start_proxy st o1).spawns = 1 ∧
        (start_proxy (start_proxy st o1).state o2).res = .ok s1 ∧
        (start_proxy (start_proxy st o1).state o2).spawns = 0 ∧
        (start_proxy (start_proxy st o1).state o2).state =
          (start_proxy st o1).state) := by
  constructor
  · intro hrun
    simp [start_proxy, hrun]
  · intro hrun s1 hok
    by_cases hc : o1.cfgWriteOk = false
    · simp [start_proxy, hrun, hc] at hok
    · by_cases hs : o1.spawnOk = false
      · simp [start_proxy, hrun, hc, hs] at hok
      · have h1 : start_proxy st o1 =
            { res := .ok
                { running := true,
                  port := st.config.port,
                  endpoint :=
                    "http://localhost:" ++ toString st.config.port ++ "/v1" },
              state :=
                { st with
                  proxy_process := some o1.newPid,
                  proxy_status :=
                    { running := true,
                      port := st.config.port,
                      endpoint :=
                        "http://localhost:" ++ toString st.config.port ++ "/v1" } },
              spawns := 1 } := by
          simp [start_proxy, hrun, hc, hs]
        rw [h1] at hok ⊢
        simp only [Except.ok.injEq] at hok
        subst hok
        simp [start_proxy]

/-- Concrete running state for the C4 witness. -/
def runningState : AppState :=
  { proxy_status :=
      { running := true, port := 8317, endpoint := "http://localhost:8317/v1" },
    auth_status := AuthStatus.default,
    config := { port := 8317, auto_start := true, launch_at_login := false },
    pending_oauth := none,
    proxy_process := some 41 }

/-- Concrete stopped state for the C4 witness. -/
def stoppedState : AppState :=
  { proxy_status :=
      { running := false, port := 8317, endpoint := "http://localhost:8317/v1" },
    auth_status := AuthStatus.default,
    config := { port := 8317, auto_start := true, launch_at_login := false },
    pending_oauth := none,
    proxy_process := none }

/-- Fully successful start oracle for the C4 witness. -/
def startsOk : StartOracle :=
  { cfgWriteOk := true, spawnOk := true, newPid := 42 }

/-- C4 witness: the idempotence theorem applied to a concrete running state
and to a concrete stopped state with a successful spawn. -/
theorem c4_start_proxy_witness :
    start_proxy runningState startsOk =
      { res := .ok runningState.proxy_status,
        state := runningState,
        spawns := 0 } ∧
    (start_proxy stoppedState startsOk).spawns = 1 := by
  constructor
  · exact (c4_start_proxy_idempotent runningState startsOk startsOk).1 rfl
  · exact ((c4_start_proxy_idempotent stoppedState startsOk startsOk).2 rfl
      { running := true,
        port := 8317,
        endpoint := "http://localhost:8317/v1" } rfl).1

/-- State touched by `complete_oauth`: the in-memory auth flags, the pending
OAuth slot, and the persisted auth file content. -/
structure CoordState where
  auth : AuthStatus
  pending : Option OAuthState
  authFile : Option AuthStatus
deriving DecidableEq

/-- Provider dispatch of `complete_oauth` (lib.rs lines 896-905): known
providers set their flag, anything else is an unknown-provider error. -/
def setProviderFlag (auth : AuthStatus) (provider : String) : Option AuthStatus :=
  if provider = "claude" then some { auth with claude := true }
  else if provider = "openai" then some { auth with openai := true }
  else if provider = "gemini" then some { auth with gemini := true }
  else if provider = "qwen" then some { auth with qwen := true }
  else if provider = "iflow" then some { auth with iflow := true }
  else if provider = "vertex" then some { auth with vertex := true }
  else if provider = "antigravity" then some { auth with antigravity := true }
  else none

/-- Read a provider's flag, for stating what `complete_oauth` sets. -/
def getProviderFlag (auth : AuthStatus) (provider : String) : Bool :=
  if provider = "claude" then auth.claude
  else if provider = "openai" then auth.openai
  else if provider = "gemini" then auth.gemini
  else if provider = "qwen" then auth.qwen
  else if provider = "iflow" then auth.iflow
  else if provider = "vertex" then auth.vertex
  else if provider = "antigravity" then auth.antigravity
  else false

/-- Model of `complete_oauth` (lib.rs lines 880-919): an unknown provider returns early
with nothing changed; the flag is set in memory, then persisted — a failing
persist propagates with `?` before the pending slot is touched; only the full
success path clears the pending slot, persists, and returns the new flags. -/
def complete_oauth (st : CoordState) (provider : String) (saveOk : Bool) :
    Except String AuthStatus × CoordState :=
  match setProviderFlag st.auth provider with
  | none => (.error ("Unknown provider: " ++ provider), st)
  | some auth1 =>
    let st1 := { st with auth := auth1 }
    if saveOk = false then
      (.error "save failed", st1)
    else
      (.ok auth1, { st1 with authFile := some auth1, pending := none })

/-- A successfully set flag reads back true for the same provider. -/
theorem setProviderFlag_get (auth : AuthStatus) (p : String) (a1 : AuthStatus)
    (h : setProviderFlag auth p = some a1) : getProviderFlag a1 p = true := by
  by_cases h1 : p = "claude"
  · simp [setProviderFlag, getProviderFlag, h1] at h ⊢
    rw [← h]
  · by_cases h2 : p = "openai"
    · simp [setProviderFlag, getProviderFlag, h1, h2] at h ⊢
      rw [← h]
    · by_cases h3 : p = "gemini"
      · simp [setProviderFlag, getProviderFlag, h1, h2, h3] at h ⊢
        rw [← h]
      · by_cases h4 : p = "qwen"
        · simp [setProviderFlag, getProviderFlag, h1, h2, h3, h4] at h ⊢
          rw [← h]
        · by_cases h5 : p = "iflow"
          · simp [setProviderFlag, getProviderFlag, h1, h2, h3, h4, h5] at h ⊢
            rw [← h]
          · by_cases h6 : p = "vertex"
            · simp [setProviderFlag, getProviderFlag, h1, h2, h3, h4, h5, h6]
                at h ⊢
              rw [← h]
            · by_cases h7 : p = "antigravity"
              · simp [setProviderFlag, getProviderFlag, h1, h2, h3, h4, h5, h6,
                  h7] at h ⊢
                rw [← h]
              · simp [setProviderFlag, h1, h2, h3, h4, h5, h6, h7] at h

/-- Coordinator state with a pending claude flow, used against C7. -/
def pendingState : CoordState :=
  { auth := AuthStatus.default,
    pending := some { provider := "claude", state := "tok123" },
    authFile := none }

/-- C7 counterexample: on an unknown provider the call errors with the pending
slot untouched, and on a persistence failure for a known provider the call
also errors with the pending slot untouched — the slot is not cleared on every
outcome as claimed. -/
theorem c7_pending_not_cleared_counterexample :
    (complete_oauth pendingState "slack" true).1 =
      .error "Unknown provider: slack" ∧
    (complete_oauth pendingState "slack" true).2.pending =
      some { provider := "claude", state := "tok123" } ∧
    (complete_oauth pendingState "slack" true).2.pending ≠ none ∧
    (complete_oauth pendingState "claude" false).1 = .error "save failed" ∧
    (complete_oauth pendingState "claude" false).2.pending ≠ none := by
  refine ⟨rfl, rfl, by decide, rfl, by decide⟩

/-- C7 (amended): the pending slot is cleared exactly on the success path —
whenever the call returns `Ok` the slot is `none`, the provider's flag is set
and the new flags are persisted; an unknown provider errors leaving the whole
state (slot included) unchanged; a persistence failure errors leaving the slot
and the persisted file unchanged, with only the in-memory flag already set. -/
theorem c7_complete_oauth_pending (st : CoordState) (provider : String)
    (saveOk : Bool) :
    (∀ a, (complete_oauth st provider saveOk).1 = .ok a →
      (complete_oauth st provider saveOk).2.pending = none ∧
      (complete_oauth st provider saveOk).2.authFile = some a ∧
      getProviderFlag a provider = true) ∧
    (setProviderFlag st.auth provider = none →
      complete_oauth st provider saveOk =
        (.error ("Unknown provider: " ++ provider), st)) ∧
    (∀ a1, setProviderFlag st.auth provider = some a1 → saveOk = false →
      complete_oauth st provider saveOk =
        (.error "save failed", { st with auth := a1 })) := by
  refine ⟨?_, ?_, ?_⟩
  · intro a hok
    cases hset : setProviderFlag st.auth provider with
    | none => simp [complete_oauth, hset] at hok
    | some a1 =>
      by_cases hsave : saveOk = false
      · simp [complete_oauth, hset, hsave] at hok
      · have ha : a1 = a := by
          simpa [complete_oauth, hset, hsave] using hok
        subst ha
        refine ⟨?_, ?_, setProviderFlag_get st.auth provider a1 hset⟩
        · simp [complete_oauth, hset, hsave]
        · simp [complete_oauth, hset, hsave]
  · intro hset
    simp [complete_oauth, hset]
  · intro a1 hset hsave
    simp [complete_oauth, hset, hsave]

/-- C7 witness: the theorem applied to the concrete pending state — a
successful `claude` completion clears the slot, persists, and sets the flag; a
concrete unknown provider and a concrete failed persist leave the slot. -/
theorem c7_complete_oauth_witness :
    (complete_oauth pendingState "claude" true).2.pending = none ∧
    (complete_oauth pendingState "claude" true).2.authFile =
      some { AuthStatus.default with claude := true } ∧
    getProviderFlag { AuthStatus.default with claude := true } "claude" = true ∧
    complete_oauth pendingState "slack" true =
      (.error "Unknown provider: slack", pendingState) ∧
    complete_oauth pendingState "claude" false =
      (.error "save failed",
        { pendingState with auth := { AuthStatus.default with claude := true } }) := by
  have h := c7_complete_oauth_pending pendingState "claude" true
  have hk := h.1 { AuthStatus.default with claude := true } rfl
  have h2 := (c7_complete_oauth_pending pendingState "slack" true).2.1 rfl
  have h3 := (c7_complete_oauth_pending pendingState "claude" false).2.2
    { AuthStatus.default with claude := true } rfl rfl
  exact ⟨hk.1, hk.2.1, hk.2.2, h2, h3⟩

/-- Auth-URL endpoint chosen by `open_oauth` (lib.rs lines 730-739): one
management URL per OAuth provider; `vertex` and unknown providers return an
error before any request is built. -/
def open_oauth_endpoint (port : Nat) (provider : String) : Option String :=
  if provider = "claude" then
    some (("http://localhost:" ++ toString port) ++
      "/v0/management/anthropic-auth-url?is_webui=true")
  else if provider = "openai" then
    some (("http://localhost:" ++ toString port) ++
      "/v0/management/codex-auth-url?is_webui=true")
  else if provider = "gemini" then
    some (("http://localhost:" ++ toString port) ++
      "/v0/management/gemini-cli-auth-url?is_webui=true")
  else if provider = "qwen" then
    some (("http://localhost:" ++ toString port) ++
      "/v0/management/qwen-auth-url?is_webui=true")
  else if provider = "iflow" then
    some (("http://localhost:" ++ toString port) ++
      "/v0/management/iflow-auth-url?is_webui=true")
  else if provider = "antigravity" then
    some (("http://localhost:" ++ toString port) ++
      "/v0/management/antigravity-auth-url?is_webui=true")
  else none

/-- Request `open_oauth` sends (lib.rs lines 742-748): the chosen endpoint
with the `X-Management-Key` header. -/
def open_oauth_request (port : Nat) (provider : String) : Option HttpRequest :=
  (open_oauth_endpoint port provider).map
    (fun url => { url := url, headers := [("X-Management-Key", "proxypal-mgmt-key")] })

/-- Request `get_usage_stats` sends (lib.rs lines 585-592): the usage endpoint
on `127.0.0.1`, with no headers at all. -/
def usageRequest (port : Nat) : HttpRequest :=
  { url := ("http://127.0.0.1:" ++ toString port) ++ "/v0/management/usage",
    headers := [] }

/-- Every auth-URL endpoint starts with the localhost origin for the port. -/
theorem open_oauth_endpoint_shape (port : Nat) (provider : String) (url : String)
    (h : open_oauth_endpoint port provider = some url) :
    ∃ rest, url = ("http://localhost:" ++ toString port) ++ rest := by
  unfold open_oauth_endpoint at h
  repeat' split at h
  all_goals first
    | exact ⟨_, (Option.some.inj h).symm⟩
    | simp at h

/-- C10 counterexample: the usage fetch carries no `X-Management-Key` header at
all (its header list is empty) and targets `http://127.0.0.1`, not
`http://localhost`. -/
theorem c10_usage_request_counterexample :
    (usageRequest 8317).headers = [] ∧
    (∀ v, ("X-Management-Key", v) ∉ (usageRequest 8317).headers) ∧
    strContains (usageRequest 8317).url "localhost" = false ∧
    (usageRequest 8317).url = "http://127.0.0.1:8317/v0/management/usage" := by
  refine ⟨rfl, ?_, rfl, rfl⟩
  intro v h
  simp [usageRequest] at h

/-- C10 (amended): the auth-url fetch and the auth-status poll both carry
exactly the `X-Management-Key: proxypal-mgmt-key` header and target
`http://localhost:<port>`; the usage fetch instead sends no header and targets
`http://127.0.0.1:<port>/v0/management/usage`. -/
theorem c10_management_requests (port : Nat) (st provider : String)
    (req : HttpRequest) :
    (pollRequest port st).headers = [("X-Management-Key", "proxypal-mgmt-key")] ∧
    (∃ rest, (pollRequest port st).url =
      ("http://localhost:" ++ toString port) ++ rest) ∧
    (open_oauth_request port provider = some req →
      req.headers = [("X-Management-Key", "proxypal-mgmt-key")] ∧
      ∃ rest, req.url = ("http://localhost:" ++ toString port) ++ rest) ∧
    (usageRequest port).headers = [] ∧
    (usageRequest port).url =
      ("http://127.0.0.1:" ++ toString port) ++ "/v0/management/usage" := by
  refine ⟨rfl, ⟨_, rfl⟩, ?_, rfl, rfl⟩
  intro hreq
  unfold open_oauth_request at hreq
  cases hep : open_oauth_endpoint port provider with
  | none => rw [hep] at hreq; simp at hreq
  | some url =>
    rw [hep] at hreq
    simp at hreq
    subst hreq
    constructor
    · rfl
    · obtain ⟨rest, hrest⟩ := open_oauth_endpoint_shape port provider url hep
      exact ⟨rest, hrest⟩

/-- C10 witness: the requests theorem applied at the default port for the
claude provider, with the auth-url hypothesis discharged by evaluation. -/
theorem c10_management_requests_witness :
    (pollRequest 8317 "tok").headers =
      [("X-Management-Key", "proxypal-mgmt-key")] ∧
    ({ url := ("http://localhost:" ++ toString 8317) ++
        "/v0/management/anthropic-auth-url?is_webui=true",
       headers := [("X-Management-Key", "proxypal-mgmt-key")] } : HttpRequest).headers
      = [("X-Management-Key", "proxypal-mgmt-key")] ∧
    (usageRequest 8317).headers = [] := by
  have h := c10_management_requests 8317 "tok" "claude"
    { url := ("http://localhost:" ++ toString 8317) ++
        "/v0/management/anthropic-auth-url?is_webui=true",
      headers := [("X-Management-Key", "proxypal-mgmt-key")] }
  exact ⟨h.1, (h.2.2.1 rfl).1, h.2.2.2.1⟩
